import Mathlib

/-!
Verification development for the Bharat-Setu eligibility and profile core.

JavaScript numbers (`z.number()`) are embedded as `ℚ`; `z.number().int()`
is the predicate `Rat.isInt`. Strings are Lean `String`s; optional fields
are `Option`s; Zod object schemas become boolean validity predicates over
structures that mirror the TypeScript interfaces in `src/types/index.ts`.
-/

/-! ## Language utilities (`src/utils/language.ts`) -/

/-- The ten supported languages (`Language` union type in `src/types/index.ts`). -/
inductive Lang where
  | hiIN | taIN | mrIN | teIN | bnIN | guIN | knIN | mlIN | paIN | orIN
deriving DecidableEq, Repr

instance : Fintype Lang :=
  ⟨⟨{Lang.hiIN, Lang.taIN, Lang.mrIN, Lang.teIN, Lang.bnIN,
     Lang.guIN, Lang.knIN, Lang.mlIN, Lang.paIN, Lang.orIN}, by decide⟩,
   fun l => by cases l <;> decide⟩

/-- The locale code of a language, as in the `Language` string union. -/
def Lang.code : Lang → String
  | .hiIN => "hi-IN"
  | .taIN => "ta-IN"
  | .mrIN => "mr-IN"
  | .teIN => "te-IN"
  | .bnIN => "bn-IN"
  | .guIN => "gu-IN"
  | .knIN => "kn-IN"
  | .mlIN => "ml-IN"
  | .paIN => "pa-IN"
  | .orIN => "or-IN"

/-- `SUPPORTED_LANGUAGES` from `src/utils/language.ts`, in declaration order. -/
def SUPPORTED_LANGUAGES : List Lang :=
  [.hiIN, .taIN, .mrIN, .teIN, .bnIN, .guIN, .knIN, .mlIN, .paIN, .orIN]

/-- `LANGUAGE_ISO_CODES` / `getLanguageISOCode` from `src/utils/language.ts`. -/
def getLanguageISOCode : Lang → String
  | .hiIN => "hi"
  | .taIN => "ta"
  | .mrIN => "mr"
  | .teIN => "te"
  | .bnIN => "bn"
  | .guIN => "gu"
  | .knIN => "kn"
  | .mlIN => "ml"
  | .paIN => "pa"
  | .orIN => "or"

/-- The list of supported locale code strings (the `LanguageSchema` enum values). -/
def LANGUAGE_CODES : List String := SUPPORTED_LANGUAGES.map Lang.code

/-- `isValidLanguage` from `src/utils/language.ts`: membership in the
`LanguageSchema` enum. -/
def isValidLanguage (s : String) : Bool := LANGUAGE_CODES.contains s

/-- JavaScript `String.prototype.toLowerCase` on ASCII input. -/
def toLowerStr (s : String) : String := ⟨s.data.map Char.toLower⟩

/-- JavaScript `String.prototype.replace('_', '-')`: replaces only the first
underscore. -/
def replaceFirstUnd : List Char → List Char
  | [] => []
  | c :: cs => if c = '_' then '-' :: cs else c :: replaceFirstUnd cs

/-- The `normalized` value in `detectLanguage`: lowercase, then replace the
first underscore with a hyphen. -/
def normalizeL (t : String) : String := ⟨replaceFirstUnd t.data⟩

/-- JavaScript `normalized.split('-')[0]`: the segment before the first hyphen. -/
def firstSeg (s : String) : String := ⟨s.data.takeWhile (fun c => c ≠ '-')⟩

/-- The language whose locale code equals `n`, if any (models the cast of the
validated `normalized` string back to `Language`). -/
def langOfCode (n : String) : Option Lang :=
  SUPPORTED_LANGUAGES.find? (fun l => l.code == n)

/-- The body of `detectLanguage` after normalization: exact-code match first,
then the ISO 639-1 fallback scanning `SUPPORTED_LANGUAGES` in order. -/
def afterNorm (n : String) : Option Lang :=
  if isValidLanguage n then langOfCode n
  else SUPPORTED_LANGUAGES.find? (fun l => getLanguageISOCode l == firstSeg n)

/-- `detectLanguage` from `src/utils/language.ts`: empty input yields `null`;
otherwise normalize and match. -/
def detectLanguage (s : String) : Option Lang :=
  if s = "" then none
  else afterNorm (normalizeL (toLowerStr s))

/-- The underscore variant of a locale code (each hyphen replaced by an
underscore, e.g. `hi_IN`). -/
def underscoreVariant (s : String) : String :=
  ⟨s.data.map (fun c => if c = '-' then '_' else c)⟩

/-! ## Zod schema embeddings (`src/types/index.ts`) -/

/-- Candidate `UserProfile` value (`UserProfile` interface). Dates are
embedded as integer timestamps; `z.date()` imposes no further constraint. -/
structure UserProfile where
  userId : String
  age : ℚ
  occupation : String
  income : ℚ
  location : String
  state : String
  language : String
  createdAt : Int
  updatedAt : Int
  hasAadhaar : Bool
  hasBankAccount : Bool
  hasRationCard : Bool
deriving DecidableEq, Repr

/-- `UserProfileSchema` from `src/types/index.ts`: nonempty strings, integer
age in `[18, 120]`, non-negative income, supported language code. -/
def userProfileValid (p : UserProfile) : Bool :=
  decide (1 ≤ p.userId.length) &&
  (p.age.isInt && decide (18 ≤ p.age) && decide (p.age ≤ 120)) &&
  decide (1 ≤ p.occupation.length) &&
  decide (0 ≤ p.income) &&
  decide (1 ≤ p.location.length) &&
  decide (1 ≤ p.state.length) &&
  isValidLanguage p.language

/-- Candidate `EligibilityCriteria` value (`EligibilityCriteria` interface). -/
structure EligibilityCriteria where
  minAge : Option ℚ := none
  maxAge : Option ℚ := none
  occupations : Option (List String) := none
  maxIncome : Option ℚ := none
  states : Option (List String) := none
  gender : Option String := none
  customRules : Option (List String) := none
deriving DecidableEq, Repr

/-- JavaScript truthiness of an optional number: `undefined`, and the number
`0`, are falsy. -/
def truthyNum : Option ℚ → Bool
  | none => false
  | some q => q != 0

/-- The `.refine` clause of `EligibilityCriteriaSchema`:
`!data.minAge || !data.maxAge || data.minAge <= data.maxAge`. -/
def criteriaRefine (c : EligibilityCriteria) : Bool :=
  !truthyNum c.minAge || !truthyNum c.maxAge ||
    decide ((c.minAge.getD 0) ≤ (c.maxAge.getD 0))

/-- `EligibilityCriteriaSchema` from `src/types/index.ts`: per-field checks
(`int`, `min(0)`, gender enum) followed by the refine clause. -/
def eligibilityCriteriaValid (c : EligibilityCriteria) : Bool :=
  (c.minAge.all fun a => a.isInt && decide (0 ≤ a)) &&
  (c.maxAge.all fun a => a.isInt && decide (0 ≤ a)) &&
  (c.maxIncome.all fun m => decide (0 ≤ m)) &&
  (c.gender.all fun g => ["male", "female", "any"].contains g) &&
  criteriaRefine c

/-- Candidate `EligibilityResult` value (`EligibilityResult` interface). -/
structure EligibilityResult where
  isEligible : Bool
  matchedCriteria : List String
  unmatchedCriteria : List String
  confidence : ℚ
deriving DecidableEq, Repr

/-- `EligibilityResultSchema` from `src/types/index.ts`: confidence must lie
in `[0, 1]`. -/
def eligibilityResultValid (r : EligibilityResult) : Bool :=
  decide (0 ≤ r.confidence) && decide (r.confidence ≤ 1)

/-- The `DocumentTypeSchema` enum values. -/
def DOC_TYPES : List String :=
  ["identity_proof", "address_proof", "income_certificate", "caste_certificate",
   "bank_details", "land_records", "other"]

/-- Candidate `Document` value (`Document` interface): recursive through the
optional `alternatives` list, embedded as a plain list (absent = `[]`).
Translation records are key-value lists; `z.record(z.string(), z.string())`
imposes no constraint beyond the types. -/
inductive Document where
  | mk (documentId : String) (name : String) (nameTranslations : List (String × String))
       (type : String) (isMandatory : Bool) (alternatives : List Document)
       (description : String) (descriptionTranslations : List (String × String))

mutual

/-- Decidable equality of documents (nested inductives get no derived
instance). -/
def decEqDocument : (a b : Document) → Decidable (a = b)
  | .mk i1 n1 nt1 t1 m1 a1 d1 dt1, .mk i2 n2 nt2 t2 m2 a2 d2 dt2 =>
    match decEqDocList a1 a2 with
    | isFalse ha => isFalse (by intro he; cases he; exact ha rfl)
    | isTrue ha =>
      if h : i1 = i2 ∧ n1 = n2 ∧ nt1 = nt2 ∧ t1 = t2 ∧ m1 = m2 ∧ d1 = d2 ∧ dt1 = dt2 then
        isTrue (by
          obtain ⟨h1, h2, h3, h4, h5, h6, h7⟩ := h
          rw [h1, h2, h3, h4, h5, h6, h7, ha])
      else
        isFalse (by intro he; cases he; exact h ⟨rfl, rfl, rfl, rfl, rfl, rfl, rfl⟩)

/-- Decidable equality of document lists. -/
def decEqDocList : (a b : List Document) → Decidable (a = b)
  | [], [] => isTrue rfl
  | [], _ :: _ => isFalse (by intro he; cases he)
  | _ :: _, [] => isFalse (by intro he; cases he)
  | x :: xs, y :: ys =>
    match decEqDocument x y, decEqDocList xs ys with
    | isTrue h1, isTrue h2 => isTrue (by rw [h1, h2])
    | isFalse h1, _ => isFalse (by intro he; cases he; exact h1 rfl)
    | _, isFalse h2 => isFalse (by intro he; cases he; exact h2 rfl)

end

instance : DecidableEq Document := decEqDocument

/-- The `documentId` field. -/
def Document.documentId : Document → String
  | .mk i _ _ _ _ _ _ _ => i

/-- The `name` field. -/
def Document.name : Document → String
  | .mk _ n _ _ _ _ _ _ => n

/-- The `type` field. -/
def Document.type : Document → String
  | .mk _ _ _ t _ _ _ _ => t

/-- The `isMandatory` field. -/
def Document.isMandatory : Document → Bool
  | .mk _ _ _ _ m _ _ _ => m

/-- The `alternatives` field. -/
def Document.alternatives : Document → List Document
  | .mk _ _ _ _ _ a _ _ => a

/-- The `description` field. -/
def Document.description : Document → String
  | .mk _ _ _ _ _ _ d _ => d

/-- The per-node field checks of `DocumentSchema` (everything except the
recursion into `alternatives`): nonempty id, name and description, and a
`DocumentTypeSchema` type tag. -/
def documentBaseValid (d : Document) : Bool :=
  decide (1 ≤ d.documentId.length) && decide (1 ≤ d.name.length) &&
  DOC_TYPES.contains d.type && decide (1 ≤ d.description.length)

mutual

/-- `DocumentSchema` from `src/types/index.ts` (`z.lazy` recursive schema):
per-node checks plus recursive validation of every alternative. -/
def documentValid : Document → Bool
  | .mk i n nt t m alts d dt =>
      documentBaseValid (.mk i n nt t m alts d dt) && documentsValid alts

/-- `z.array(DocumentSchema)` validation of a list of documents. -/
def documentsValid : List Document → Bool
  | [] => true
  | d :: ds => documentValid d && documentsValid ds

end

mutual

/-- All documents in the tree rooted at `d` (the node itself and every
document reachable through `alternatives`). -/
def subDocs : Document → List Document
  | .mk i n nt t m alts d dt => .mk i n nt t m alts d dt :: subDocsList alts

/-- All documents in the trees rooted at the members of a list. -/
def subDocsList : List Document → List Document
  | [] => []
  | d :: ds => subDocs d ++ subDocsList ds

end

/-- Candidate `ApplicationStep` value (`ApplicationStep` interface). The
optional `url` is embedded as an optional string. -/
structure ApplicationStep where
  stepNumber : ℚ
  description : String
  descriptionTranslations : List (String × String)
  url : Option String := none
  address : Option String := none
deriving DecidableEq

/-- Shallow model of Zod's `z.string().url()` check (library primitive, not
repository code): an absolute `http(s)` URL. -/
def isUrl (s : String) : Bool :=
  ("http://".data.isPrefixOf s.data && decide (8 ≤ s.length)) ||
  ("https://".data.isPrefixOf s.data && decide (9 ≤ s.length))

/-- `ApplicationStepSchema` from `src/types/index.ts`. -/
def applicationStepValid (st : ApplicationStep) : Bool :=
  (st.stepNumber.isInt && decide (1 ≤ st.stepNumber)) &&
  decide (1 ≤ st.description.length) &&
  (st.url.all isUrl)

/-- The `SchemeCategorySchema` enum values. -/
def CATEGORIES : List String :=
  ["agriculture", "healthcare", "education", "pension", "housing",
   "employment", "women_empowerment"]

/-- Candidate `Scheme` value (`Scheme` interface). -/
structure Scheme where
  schemeId : String
  name : String
  nameTranslations : List (String × String)
  description : String
  descriptionTranslations : List (String × String)
  category : String
  eligibilityCriteria : EligibilityCriteria
  benefits : List String
  requiredDocuments : List Document
  applicationProcess : List ApplicationStep
  officialUrl : String
  lastUpdated : Int
deriving DecidableEq

/-- `SchemeSchema` from `src/types/index.ts`. -/
def schemeValid (s : Scheme) : Bool :=
  decide (1 ≤ s.schemeId.length) && decide (1 ≤ s.name.length) &&
  decide (1 ≤ s.description.length) &&
  CATEGORIES.contains s.category &&
  eligibilityCriteriaValid s.eligibilityCriteria &&
  decide (1 ≤ s.benefits.length) &&
  documentsValid s.requiredDocuments &&
  decide (1 ≤ s.applicationProcess.length) &&
  s.applicationProcess.all applicationStepValid &&
  isUrl s.officialUrl

/-- Candidate `SchemeMatch` value (`SchemeMatch` interface). -/
structure SchemeMatch where
  scheme : Scheme
  eligibilityScore : ℚ
  matchReasons : List String
  missingCriteria : Option (List String) := none
deriving DecidableEq

/-- `SchemeMatchSchema` from `src/types/index.ts`: a valid scheme, a score in
`[0, 1]` and at least one match reason. -/
def schemeMatchValid (m : SchemeMatch) : Bool :=
  schemeValid m.scheme &&
  decide (0 ≤ m.eligibilityScore) && decide (m.eligibilityScore ≤ 1) &&
  decide (1 ≤ m.matchReasons.length)

/-- `DocumentAlternative` interface: one logical requirement satisfiable by
any member of `options`. -/
structure DocumentAlternative where
  description : String
  options : List Document
deriving DecidableEq

/-- `Checklist` interface from `src/types/index.ts`. -/
structure Checklist where
  mandatory : List Document
  optional : List Document
  alternatives : List DocumentAlternative
deriving DecidableEq

/-! ## ProfileStore (`src/unnamed/part_003`) -/

/-- The error taxonomy of `ProfileStore` operations: `ProfileValidationError`,
the already-exists `Error` thrown by `create`, `ProfileNotFoundError`, and
`ProfileStoreThrottlingError`. -/
inductive StoreErr where
  | validation
  | alreadyExists
  | notFound
  | throttling
deriving DecidableEq, Repr

/-- The DynamoDB table state: an association list from `userId` keys to stored
profiles. DynamoDB keys are unique, so each key occurs at most once in any
reachable state. -/
def Store := List (String × UserProfile)

/-- `ProfileStore.create`: validate with `UserProfileSchema` (throwing
`ProfileValidationError` before any write), then a conditional put with
`attribute_not_exists(userId)` that throws already-exists instead of
overwriting. The returned store is the post-state (unchanged on error). -/
def createRun (s : Store) (p : UserProfile) : Except StoreErr String × Store :=
  if userProfileValid p = false then (.error .validation, s)
  else if (List.lookup p.userId s).isSome then (.error .alreadyExists, s)
  else (.ok p.userId, (p.userId, p) :: s)

/-- `ProfileStore.get`: a `GetItemCommand` returning the stored item or
`null`; a missing key is not an error. -/
def getRun (s : Store) (userId : String) : Except StoreErr (Option UserProfile) :=
  .ok (List.lookup userId s)

/-- `ProfileStore.delete`: an unconditional `DeleteItemCommand` (no
`ConditionExpression`), so the key is removed if present and the call
succeeds either way; only environmental throttling (modelled by the
`throttled` flag) makes it fail. -/
def deleteRun (throttled : Bool) (s : Store) (userId : String) :
    Except StoreErr Store :=
  if throttled then .error .throttling
  else .ok (s.filter (fun e => e.1 ≠ userId))

/-! ## Spec-modelled engine components

The CriteriaEvaluator, RelevanceRanker and ChecklistBuilder are declared in
the design documents but their implementations are not in the repository
sources; they are modelled here from the specification. -/

/-- Modelled from the spec: the configurable borderline tolerance band
(§4.1, "income exceeding the ceiling by ≤5%"). -/
def TOLERANCE : ℚ := 5 / 100

/-- Modelled from the spec: the fixed confidence penalty applied per
borderline criterion (§4.1). -/
def BORDERLINE_PENALTY : ℚ := 1 / 10

/-- Modelled from the spec: the classification of one numeric criterion as
matched, borderline (within tolerance of the boundary) or failed. -/
inductive CritClass where
  | matched
  | borderline
  | failed
deriving DecidableEq, Repr

/-- Modelled from the spec: classify a value against an inclusive upper
bound; exceeding it by at most the tolerance is borderline. -/
def classifyMax (value bound : ℚ) : CritClass :=
  if value ≤ bound then .matched
  else if value ≤ bound * (1 + TOLERANCE) then .borderline
  else .failed

/-- Modelled from the spec: classify a value against an inclusive lower
bound; falling short by at most the tolerance is borderline. -/
def classifyMin (value bound : ℚ) : CritClass :=
  if bound ≤ value then .matched
  else if bound * (1 - TOLERANCE) ≤ value then .borderline
  else .failed

/-- Modelled from the spec: the evaluator's result shape (§3), which extends
the repository's `EligibilityResult` with `borderlineCriteria`. -/
structure EvalResult where
  isEligible : Bool
  matchedCriteria : List String
  unmatchedCriteria : List String
  borderlineCriteria : List String
  confidence : ℚ
deriving DecidableEq, Repr

/-- The labelled classifications of the numeric criteria of an
`EligibilityCriteria` present in `c`, for a profile with the given age and
income. -/
def criterionChecks (p : UserProfile) (c : EligibilityCriteria) :
    List (String × CritClass) :=
  (match c.minAge with
   | some a => [("minAge", classifyMin p.age a)]
   | none => []) ++
  (match c.maxAge with
   | some b => [("maxAge", classifyMax p.age b)]
   | none => []) ++
  (match c.maxIncome with
   | some m => [("income", classifyMax p.income m)]
   | none => [])

/-- Modelled from the spec: `CriteriaEvaluator.evaluate` (§4.1) restricted to
the numeric bounds of the repository's `EligibilityCriteria`. Borderline
criteria are excluded from `unmatchedCriteria`, reduce confidence by the
fixed penalty each, and do not flip `isEligible`; any failed criterion makes
the profile ineligible. -/
def evaluate (p : UserProfile) (c : EligibilityCriteria) : EvalResult :=
  let checks := criterionChecks p c
  let borderline := (checks.filter (fun x => x.2 = .borderline)).map Prod.fst
  { isEligible := (checks.filter (fun x => x.2 = .failed)).isEmpty
    matchedCriteria := (checks.filter (fun x => x.2 = .matched)).map Prod.fst
    unmatchedCriteria := (checks.filter (fun x => x.2 = .failed)).map Prod.fst
    borderlineCriteria := borderline
    confidence := 1 - BORDERLINE_PENALTY * borderline.length }

/-- Modelled from the spec: a ranked match as consumed by the ranker (§4.2),
pairing a scheme with its evaluation result and score. -/
structure RankedMatch where
  scheme : Scheme
  result : EligibilityResult
  score : ℚ
deriving DecidableEq

/-- Modelled from the spec: the ranker's ordering test — higher confidence
first, ties broken by lexicographically smaller scheme identifier (§4.2; the
repository's `Scheme` carries no numeric benefit amount or priority
metadata, so the benefit factor is the neutral default and the priority
tie-break is vacuous). -/
def rankLE (a b : RankedMatch) : Bool :=
  decide (b.score ≤ a.score) &&
  (decide (a.score ≤ b.score) → decide (a.scheme.schemeId ≤ b.scheme.schemeId))

/-- Insertion into a list ordered by `rankLE`. -/
def insertRanked (m : RankedMatch) : List RankedMatch → List RankedMatch
  | [] => [m]
  | x :: xs => if rankLE m x then m :: x :: xs else x :: insertRanked m xs

/-- Insertion sort by `rankLE` (a deterministic materialized ordering). -/
def sortRanked : List RankedMatch → List RankedMatch
  | [] => []
  | x :: xs => insertRanked x (sortRanked xs)

/-- Modelled from the spec: `RelevanceRanker.rank` (§4.2) — drop entries with
`isEligible = false`, score each retained entry by confidence times the
neutral benefit factor, and emit the deterministically ordered primary
list. The zero-match fallback returns alternatives in a separate channel and
never adds to this primary list. -/
def rank (entries : List (Scheme × EligibilityResult)) : List RankedMatch :=
  sortRanked ((entries.filter (fun e => e.2.isEligible)).map
    (fun e => { scheme := e.1, result := e.2, score := e.2.confidence }))

/-- Modelled from the spec: `ChecklistBuilder.build` (§4.4) restricted to the
partitioning step — split `scheme.requiredDocuments` by the mandatory flag,
pulling each document that declares alternatives out of the flat partitions
and emitting it once as an alternative group whose options are the document
itself and its declared alternatives. The repository's `Document` has no
priority field, so the priority sort is the identity (declaration order). -/
def buildChecklist (docs : List Document) : Checklist :=
  { mandatory := docs.filter (fun d => d.isMandatory && d.alternatives.isEmpty)
    optional := docs.filter (fun d => !d.isMandatory && d.alternatives.isEmpty)
    alternatives := (docs.filter (fun d => !d.alternatives.isEmpty)).map
      (fun d => { description := d.name, options := d :: d.alternatives }) }

/-- The number of times document `d` occurs across a checklist's mandatory
list, optional list and alternative-group options. -/
def checklistCount (cl : Checklist) (d : Document) : Nat :=
  cl.mandatory.count d + cl.optional.count d +
    (cl.alternatives.map (fun g => g.options.count d)).sum

/-! ## Helper lemmas -/

/-- Characterization of `userProfileValid` as a conjunction. -/
theorem userProfileValid_iff (p : UserProfile) :
    userProfileValid p = true ↔
      (1 ≤ p.userId.length ∧
       (p.age.isInt = true ∧ 18 ≤ p.age ∧ p.age ≤ 120) ∧
       1 ≤ p.occupation.length ∧
       0 ≤ p.income ∧
       1 ≤ p.location.length ∧
       1 ≤ p.state.length ∧
       isValidLanguage p.language = true) := by
  simp [userProfileValid, and_assoc]

/-! ## Claim theorems -/

/-- C1: the claim asserts that `EligibilityCriteriaSchema` rejects every
criteria value with both age bounds present and `minAge > maxAge`, including
`maxAge = 0`. The schema's refine clause uses JavaScript truthiness, under
which the number `0` is falsy, so `{minAge: 1, maxAge: 0}` passes validation
even though `minAge > maxAge`. -/
theorem c1_refine_accepts_zero_maxAge :
    eligibilityCriteriaValid { minAge := some 1, maxAge := some 0 } = true ∧
    ¬ ((1 : ℚ) ≤ 0) := by
  constructor
  · decide
  · norm_num

/-- C3: `UserProfileSchema` validation fails whenever income is negative or
age is not an integer in `[18, 120]`, and accepts any profile whose required
string fields are nonempty, whose age is an integer in `[18, 120]`, whose
income is non-negative and whose language code is supported. -/
theorem c3_userProfileSchema_bounds (p : UserProfile) :
    (p.income < 0 ∨ ¬(p.age.isInt = true ∧ 18 ≤ p.age ∧ p.age ≤ 120) →
      userProfileValid p = false) ∧
    (1 ≤ p.userId.length → 1 ≤ p.occupation.length → 1 ≤ p.location.length →
     1 ≤ p.state.length → p.age.isInt = true → 18 ≤ p.age → p.age ≤ 120 →
     0 ≤ p.income → isValidLanguage p.language = true →
     userProfileValid p = true) := by
  constructor
  · intro h
    rw [Bool.eq_false_iff]
    intro htrue
    rw [userProfileValid_iff] at htrue
    obtain ⟨_, hage, _, hinc, _⟩ := htrue
    rcases h with h | h
    · exact absurd hinc (not_le.mpr h)
    · exact h hage
  · intro h1 h2 h3 h4 h5 h6 h7 h8 h9
    rw [userProfileValid_iff]
    exact ⟨h1, ⟨h5, h6, h7⟩, h2, h8, h3, h4, h9⟩

/-- Witness for C3 at a concrete accepted profile. -/
theorem c3_userProfileSchema_bounds_witness :
    userProfileValid
      { userId := "user123", age := 35, occupation := "farmer", income := 50000,
        location := "Mumbai", state := "Maharashtra", language := "hi-IN",
        createdAt := 0, updatedAt := 0, hasAadhaar := true,
        hasBankAccount := true, hasRationCard := false } = true :=
  (c3_userProfileSchema_bounds _).2 (by decide) (by decide) (by decide)
    (by decide) (by decide) (by decide) (by decide) (by decide) (by decide)

/-- C4: every `EligibilityResult` accepted by `EligibilityResultSchema` has
confidence in `[0, 1]`, and every `SchemeMatch` accepted by
`SchemeMatchSchema` has `eligibilityScore` in `[0, 1]`; in particular no
validated output carries a score above `1`, so a `[0, 100]`-scale score is
rejected. -/
theorem c4_scores_in_unit_interval (r : EligibilityResult) (m : SchemeMatch) :
    (eligibilityResultValid r = true → 0 ≤ r.confidence ∧ r.confidence ≤ 1) ∧
    (schemeMatchValid m = true →
      0 ≤ m.eligibilityScore ∧ m.eligibilityScore ≤ 1) := by
  constructor
  · intro h
    simp only [eligibilityResultValid, Bool.and_eq_true, decide_eq_true_eq] at h
    exact h
  · intro h
    simp only [schemeMatchValid, Bool.and_eq_true, decide_eq_true_eq] at h
    exact ⟨h.1.1.2, h.1.2⟩

/-- A concrete mandatory identity document. -/
def sampleDoc : Document :=
  .mk "doc1" "Aadhaar Card" [] "identity_proof" true [] "Identity card" []

/-- A concrete application step. -/
def sampleStep : ApplicationStep :=
  { stepNumber := 1, description := "Apply at the portal",
    descriptionTranslations := [] }

/-- A concrete scheme accepted by `SchemeSchema`. -/
def sampleScheme : Scheme :=
  { schemeId := "pm-kisan", name := "PM Kisan", nameTranslations := [],
    description := "Income support for farmers", descriptionTranslations := [],
    category := "agriculture", eligibilityCriteria := {},
    benefits := ["6000 per year"], requiredDocuments := [sampleDoc],
    applicationProcess := [sampleStep],
    officialUrl := "https://pmkisan.gov.in", lastUpdated := 0 }

/-- A concrete result accepted by `EligibilityResultSchema`. -/
def sampleResult : EligibilityResult :=
  { isEligible := true, matchedCriteria := ["age"], unmatchedCriteria := [],
    confidence := mkRat 9 10 }

/-- A concrete match accepted by `SchemeMatchSchema`. -/
def sampleMatch : SchemeMatch :=
  { scheme := sampleScheme, eligibilityScore := mkRat 1 2,
    matchReasons := ["age"] }

/-- Witness for C4 at concrete validated values. -/
theorem c4_scores_in_unit_interval_witness :
    (0 ≤ sampleResult.confidence ∧ sampleResult.confidence ≤ 1) ∧
    (0 ≤ sampleMatch.eligibilityScore ∧ sampleMatch.eligibilityScore ≤ 1) :=
  ⟨(c4_scores_in_unit_interval sampleResult sampleMatch).1 (by decide),
   (c4_scores_in_unit_interval sampleResult sampleMatch).2 (by decide)⟩

/-- C8: `ProfileStore.create` rejects invalid profiles with
`ProfileValidationError` before writing (state unchanged), and rejects a
valid profile whose `userId` already exists with an already-exists error
instead of overwriting the stored profile. -/
theorem c8_create_validates_and_never_overwrites (s : Store) (p : UserProfile) :
    (userProfileValid p = false → createRun s p = (.error .validation, s)) ∧
    (∀ q, userProfileValid p = true → List.lookup p.userId s = some q →
      createRun s p = (.error .alreadyExists, s)) := by
  constructor
  · intro h
    simp [createRun, h]
  · intro q h hl
    simp [createRun, h, hl]

/-- An under-age (hence invalid) candidate profile. -/
def underAgeProfile : UserProfile :=
  { userId := "u1", age := 15, occupation := "farmer", income := 0,
    location := "Pune", state := "MH", language := "hi-IN",
    createdAt := 0, updatedAt := 0, hasAadhaar := true,
    hasBankAccount := true, hasRationCard := true }

/-- A valid stored profile for user `u2`. -/
def storedProfile : UserProfile :=
  { userId := "u2", age := 30, occupation := "farmer", income := 0,
    location := "Pune", state := "MH", language := "hi-IN",
    createdAt := 0, updatedAt := 0, hasAadhaar := true,
    hasBankAccount := true, hasRationCard := true }

/-- A valid second profile reusing the `u2` key. -/
def duplicateProfile : UserProfile :=
  { userId := "u2", age := 40, occupation := "teacher", income := 1,
    location := "Pune", state := "MH", language := "ta-IN",
    createdAt := 1, updatedAt := 1, hasAadhaar := false,
    hasBankAccount := true, hasRationCard := true }

/-- The one-entry store holding `storedProfile`. -/
def oneStore : Store := [("u2", storedProfile)]

/-- Witness for C8: an under-age profile is rejected with a validation error
and the empty store is unchanged, and re-creating an existing user fails with
the already-exists error, leaving the stored profile intact. -/
theorem c8_create_validates_and_never_overwrites_witness :
    createRun ([] : Store) underAgeProfile = (.error .validation, ([] : Store)) ∧
    createRun oneStore duplicateProfile = (.error .alreadyExists, oneStore) :=
  ⟨(c8_create_validates_and_never_overwrites _ _).1 (by decide),
   (c8_create_validates_and_never_overwrites oneStore duplicateProfile).2
     storedProfile (by decide) (by decide)⟩

/-- After filtering out every entry with key `u`, lookup of `u` misses. -/
theorem lookup_filter_ne (s : Store) (u : String) :
    List.lookup u (s.filter fun e => e.1 ≠ u) = none := by
  induction s with
  | nil => rfl
  | cons a t ih =>
    obtain ⟨k, v⟩ := a
    rw [List.filter_cons]
    by_cases h : k = u
    · rw [if_neg (by simp [h])]
      exact ih
    · rw [if_pos (by simp [h]), List.lookup]
      rw [show (u == k) = false from beq_eq_false_iff_ne.mpr (Ne.symm h)]
      exact ih

/-- Filtering out an absent key leaves the store unchanged. -/
theorem filter_eq_self_of_lookup_none (s : Store) (u : String)
    (h : List.lookup u s = none) : (s.filter fun e => e.1 ≠ u) = s := by
  induction s with
  | nil => rfl
  | cons a t ih =>
    obtain ⟨k, v⟩ := a
    rw [List.lookup] at h
    by_cases hk : u = k
    · rw [show (u == k) = true from beq_iff_eq.mpr hk] at h
      simp at h
    · rw [show (u == k) = false from beq_eq_false_iff_ne.mpr hk] at h
      rw [List.filter_cons, if_pos (by simp [Ne.symm hk])]
      rw [ih h]

/-- C9: `ProfileStore.delete` never raises a missing-profile error — its only
failure is throttling — deleting an absent `userId` completes and leaves the
store unchanged, and after a successful delete, `get` of that `userId`
returns `null`. -/
theorem c9_delete_idempotent (thr : Bool) (s : Store) (u : String) :
    (∀ e, deleteRun thr s u = .error e → e = .throttling) ∧
    (∀ s', deleteRun thr s u = .ok s' → getRun s' u = .ok none) ∧
    (List.lookup u s = none → deleteRun false s u = .ok s) := by
  refine ⟨?_, ?_, ?_⟩
  · intro e he
    cases thr with
    | true =>
      rw [deleteRun, if_pos rfl] at he
      injection he with h
      exact h.symm
    | false =>
      rw [deleteRun, if_neg (by simp)] at he
      cases he
  · intro s' hs
    cases thr with
    | true => rw [deleteRun, if_pos rfl] at hs; cases hs
    | false =>
      rw [deleteRun, if_neg (by simp)] at hs
      injection hs with h
      rw [getRun, ← h, lookup_filter_ne]
  · intro h
    rw [deleteRun, if_neg (by simp), filter_eq_self_of_lookup_none s u h]

/-- No supported locale code lowercases to the empty string. -/
theorem code_toLower_ne_empty (L : Lang) : toLowerStr L.code ≠ "" := by
  cases L <;> decide

/-- C10: for every supported language, `detectLanguage` maps back to it from
the exact locale code, any case variant, the underscore variant, and the bare
ISO 639-1 code from `getLanguageISOCode`; and any input whose normalized form
is not a supported code and whose first hyphen-separated segment matches no
supported ISO code yields `null`. -/
theorem c10_detectLanguage_roundtrip (L : Lang) (s : String) :
    detectLanguage L.code = some L ∧
    (toLowerStr s = toLowerStr L.code → detectLanguage s = some L) ∧
    detectLanguage (underscoreVariant L.code) = some L ∧
    detectLanguage (getLanguageISOCode L) = some L ∧
    (isValidLanguage (normalizeL (toLowerStr s)) = false →
      (SUPPORTED_LANGUAGES.all fun l =>
        getLanguageISOCode l != firstSeg (normalizeL (toLowerStr s))) = true →
      detectLanguage s = none) := by
  refine ⟨?_, ?_, ?_, ?_, ?_⟩
  · cases L <;> decide
  · intro h
    have hs : s ≠ "" := by
      intro he
      subst he
      exact code_toLower_ne_empty L
        (h.symm.trans (show toLowerStr "" = "" from rfl))
    rw [detectLanguage, if_neg hs, h]
    cases L <;> decide
  · cases L <;> decide
  · cases L <;> decide
  · intro h1 h2
    by_cases hs : s = ""
    · subst hs; rfl
    · rw [detectLanguage, if_neg hs, afterNorm, if_neg (by simp [h1])]
      rw [List.find?_eq_none]
      intro l hl
      simp only [beq_iff_eq]
      rw [List.all_eq_true] at h2
      exact bne_iff_ne.mp (h2 l hl)

/-- Witness for C10: a case variant resolves to Hindi and an unsupported code
yields `null`. -/
theorem c10_detectLanguage_roundtrip_witness :
    detectLanguage "HI-IN" = some Lang.hiIN ∧ detectLanguage "en-US" = none :=
  ⟨(c10_detectLanguage_roundtrip Lang.hiIN "HI-IN").2.1 (by decide),
   (c10_detectLanguage_roundtrip Lang.hiIN "en-US").2.2.2.2 (by decide)
     (by decide)⟩

/-- Membership is preserved by ranked insertion. -/
theorem mem_insertRanked (m a : RankedMatch) (l : List RankedMatch) :
    a ∈ insertRanked m l ↔ a = m ∨ a ∈ l := by
  induction l with
  | nil => simp [insertRanked]
  | cons x xs ih =>
    rw [insertRanked]
    by_cases h : rankLE m x = true
    · simp [h]
    · simp [h, ih]
      tauto

/-- Membership is preserved by the ranking sort. -/
theorem mem_sortRanked (a : RankedMatch) (l : List RankedMatch) :
    a ∈ sortRanked l ↔ a ∈ l := by
  induction l with
  | nil => simp [sortRanked]
  | cons x xs ih =>
    rw [sortRanked, mem_insertRanked]
    simp [ih]

/-- C2: every match in the primary ranked list produced by `rank` comes from
an entry whose evaluation yielded `isEligible = true`; results with
`isEligible = false` never surface as primary matches. -/
theorem c2_rank_only_eligible (entries : List (Scheme × EligibilityResult))
    (m : RankedMatch) (h : m ∈ rank entries) : m.result.isEligible = true := by
  rw [rank, mem_sortRanked] at h
  obtain ⟨e, he, rfl⟩ := List.mem_map.mp h
  exact (List.mem_filter.mp he).2

/-- The sole ranked match arising from the sample scheme. -/
def sampleRanked : RankedMatch :=
  { scheme := sampleScheme,
    result := { isEligible := true, matchedCriteria := ["age"],
                unmatchedCriteria := [], confidence := 1 },
    score := 1 }

/-- Witness for C2: the match surviving ranking of one eligible and one
ineligible entry is eligible. -/
theorem c2_rank_only_eligible_witness : sampleRanked.result.isEligible = true :=
  c2_rank_only_eligible
    [(sampleScheme, { isEligible := false, matchedCriteria := [],
                      unmatchedCriteria := ["age"], confidence := 1 }),
     (sampleScheme, sampleRanked.result)]
    sampleRanked (by decide)

/-- C5: a profile whose income exceeds a scheme's income ceiling by at most
the configured tolerance, while meeting the age bounds, is still eligible;
the income criterion is reported borderline, not unmatched, and the
confidence is strictly below that of a profile meeting the ceiling exactly. -/
theorem c5_borderline_within_tolerance (p : UserProfile)
    (c : EligibilityCriteria) (bound : ℚ)
    (hm : c.maxIncome = some bound) (hlo : bound < p.income)
    (hhi : p.income ≤ bound * (1 + TOLERANCE))
    (hmin : ∀ a, c.minAge = some a → a ≤ p.age)
    (hmax : ∀ b, c.maxAge = some b → p.age ≤ b) :
    (evaluate p c).isEligible = true ∧
    "income" ∈ (evaluate p c).borderlineCriteria ∧
    "income" ∉ (evaluate p c).unmatchedCriteria ∧
    ∀ p2 : UserProfile, p2.age = p.age → p2.income ≤ bound →
      (evaluate p c).confidence < (evaluate p2 c).confidence := by
  have e3 : classifyMax p.income bound = .borderline := by
    rw [classifyMax, if_neg (not_le.mpr hlo), if_pos hhi]
  rcases hA : c.minAge with _ | a <;> rcases hB : c.maxAge with _ | b
  · have hc : criterionChecks p c = [("income", CritClass.borderline)] := by
      simp [criterionChecks, hA, hB, hm, e3]
    refine ⟨by simp [evaluate, hc], by simp [evaluate, hc],
            by simp [evaluate, hc], ?_⟩
    intro p2 h2age h2inc
    have f3 : classifyMax p2.income bound = .matched := by
      rw [classifyMax, if_pos h2inc]
    have hc2 : criterionChecks p2 c = [("income", CritClass.matched)] := by
      simp [criterionChecks, hA, hB, hm, f3]
    simp [evaluate, hc, hc2, BORDERLINE_PENALTY]
  · have e2 : classifyMax p.age b = .matched := by
      rw [classifyMax, if_pos (hmax b hB)]
    have hc : criterionChecks p c =
        [("maxAge", CritClass.matched), ("income", CritClass.borderline)] := by
      simp [criterionChecks, hA, hB, hm, e2, e3]
    refine ⟨by simp [evaluate, hc], by simp [evaluate, hc],
            by simp [evaluate, hc], ?_⟩
    intro p2 h2age h2inc
    have f2 : classifyMax p2.age b = .matched := by
      rw [h2age, classifyMax, if_pos (hmax b hB)]
    have f3 : classifyMax p2.income bound = .matched := by
      rw [classifyMax, if_pos h2inc]
    have hc2 : criterionChecks p2 c =
        [("maxAge", CritClass.matched), ("income", CritClass.matched)] := by
      simp [criterionChecks, hA, hB, hm, f2, f3]
    simp [evaluate, hc, hc2, BORDERLINE_PENALTY]
  · have e1 : classifyMin p.age a = .matched := by
      rw [classifyMin, if_pos (hmin a hA)]
    have hc : criterionChecks p c =
        [("minAge", CritClass.matched), ("income", CritClass.borderline)] := by
      simp [criterionChecks, hA, hB, hm, e1, e3]
    refine ⟨by simp [evaluate, hc], by simp [evaluate, hc],
            by simp [evaluate, hc], ?_⟩
    intro p2 h2age h2inc
    have f1 : classifyMin p2.age a = .matched := by
      rw [h2age, classifyMin, if_pos (hmin a hA)]
    have f3 : classifyMax p2.income bound = .matched := by
      rw [classifyMax, if_pos h2inc]
    have hc2 : criterionChecks p2 c =
        [("minAge", CritClass.matched), ("income", CritClass.matched)] := by
      simp [criterionChecks, hA, hB, hm, f1, f3]
    simp [evaluate, hc, hc2, BORDERLINE_PENALTY]
  · have e1 : classifyMin p.age a = .matched := by
      rw [classifyMin, if_pos (hmin a hA)]
    have e2 : classifyMax p.age b = .matched := by
      rw [classifyMax, if_pos (hmax b hB)]
    have hc : criterionChecks p c =
        [("minAge", CritClass.matched), ("maxAge", CritClass.matched),
         ("income", CritClass.borderline)] := by
      simp [criterionChecks, hA, hB, hm, e1, e2, e3]
    refine ⟨by simp [evaluate, hc], by simp [evaluate, hc],
            by simp [evaluate, hc], ?_⟩
    intro p2 h2age h2inc
    have f1 : classifyMin p2.age a = .matched := by
      rw [h2age, classifyMin, if_pos (hmin a hA)]
    have f2 : classifyMax p2.age b = .matched := by
      rw [h2age, classifyMax, if_pos (hmax b hB)]
    have f3 : classifyMax p2.income bound = .matched := by
      rw [classifyMax, if_pos h2inc]
    have hc2 : criterionChecks p2 c =
        [("minAge", CritClass.matched), ("maxAge", CritClass.matched),
         ("income", CritClass.matched)] := by
      simp [criterionChecks, hA, hB, hm, f1, f2, f3]
    simp [evaluate, hc, hc2, BORDERLINE_PENALTY]

/-- A profile exceeding the 100000 income ceiling by 4%. -/
def borderlineProfile : UserProfile :=
  { userId := "u3", age := 30, occupation := "farmer", income := 104000,
    location := "Pune", state := "MH", language := "hi-IN",
    createdAt := 0, updatedAt := 0, hasAadhaar := true,
    hasBankAccount := true, hasRationCard := true }

/-- The same profile with income exactly at the ceiling. -/
def exactProfile : UserProfile :=
  { userId := "u3", age := 30, occupation := "farmer", income := 100000,
    location := "Pune", state := "MH", language := "hi-IN",
    createdAt := 0, updatedAt := 0, hasAadhaar := true,
    hasBankAccount := true, hasRationCard := true }

/-- Criteria with only an income ceiling of 100000. -/
def incomeCriteria : EligibilityCriteria := { maxIncome := some 100000 }

/-- Witness for C5 at Scenario B: income 104000 against ceiling 100000. -/
theorem c5_borderline_within_tolerance_witness :
    (evaluate borderlineProfile incomeCriteria).isEligible = true ∧
    "income" ∈ (evaluate borderlineProfile incomeCriteria).borderlineCriteria ∧
    "income" ∉ (evaluate borderlineProfile incomeCriteria).unmatchedCriteria ∧
    (evaluate borderlineProfile incomeCriteria).confidence <
      (evaluate exactProfile incomeCriteria).confidence := by
  obtain ⟨h1, h2, h3, h4⟩ :=
    c5_borderline_within_tolerance borderlineProfile incomeCriteria 100000
      rfl (by decide) (by norm_num [TOLERANCE, borderlineProfile])
      (by intro a ha; cases ha) (by intro b hb; cases hb)
  exact ⟨h1, h2, h3, h4 exactProfile rfl (by decide)⟩

/-- Counting after a filter: the count survives iff the element satisfies the
filter predicate. -/
theorem count_filter_eq (p : Document → Bool) (l : List Document)
    (d : Document) :
    (l.filter p).count d = if p d then l.count d else 0 := by
  by_cases h : p d = true
  · rw [if_pos h, List.count_filter h]
  · rw [if_neg h, List.count_eq_zero]
    intro hm
    exact h (List.of_mem_filter hm)

/-- Summing the indicator of equality with `d` over a list counts `d`. -/
theorem sum_indicator_eq_count (l : List Document) (d : Document) :
    (l.map (fun y => if y = d then 1 else 0)).sum = l.count d := by
  induction l with
  | nil => rfl
  | cons y t ih =>
    rw [List.map_cons, List.sum_cons, ih, List.count_cons]
    by_cases h : y = d
    · simp [h, Nat.add_comm]
    · simp [h]

/-- C6: on a duplicate-free document list in which no declared document is a
member of another declared document's alternatives, the checklist built from
it is an exact partition — every declared document occurs exactly once across
the mandatory list, the optional list and the alternative-group options — and
a document declaring alternatives never appears standalone. -/
theorem c6_checklist_partition (docs : List Document) (d : Document)
    (hnd : docs.Nodup)
    (hdisj : ∀ x ∈ docs, ∀ y ∈ docs, x ∉ y.alternatives)
    (hd : d ∈ docs) :
    checklistCount (buildChecklist docs) d = 1 ∧
    (d.alternatives ≠ [] →
      d ∉ (buildChecklist docs).mandatory ∧
      d ∉ (buildChecklist docs).optional) := by
  have hcnt : docs.count d = 1 := List.count_eq_one_of_mem hnd hd
  have hsum :
      ((buildChecklist docs).alternatives.map (fun g => g.options.count d)).sum
        = (docs.filter (fun y => !y.alternatives.isEmpty)).count d := by
    rw [show (buildChecklist docs).alternatives =
          (docs.filter (fun x => !x.alternatives.isEmpty)).map
            (fun x => { description := x.name,
                        options := x :: x.alternatives }) from rfl]
    rw [List.map_map]
    rw [List.map_congr_left (g := fun y => if y = d then 1 else 0)
      (fun y hy => by
        have hy' := List.mem_filter.mp hy
        show (y :: y.alternatives).count d = if y = d then 1 else 0
        rw [List.count_cons,
          List.count_eq_zero_of_not_mem (hdisj d hd y hy'.1)]
        by_cases h : y = d
        · simp [h]
        · simp [h])]
    exact sum_indicator_eq_count _ d
  constructor
  · rw [checklistCount]
    rw [show (buildChecklist docs).mandatory =
          docs.filter (fun x => x.isMandatory && x.alternatives.isEmpty)
        from rfl]
    rw [show (buildChecklist docs).optional =
          docs.filter (fun x => !x.isMandatory && x.alternatives.isEmpty)
        from rfl]
    rw [count_filter_eq, count_filter_eq, hsum, count_filter_eq, hcnt]
    by_cases hM : d.isMandatory = true <;>
      by_cases hE : d.alternatives.isEmpty = true <;> simp [hM, hE]
  · intro hne
    constructor <;> intro hmem
    · have hb := (List.mem_filter.mp hmem).2
      simp only [Bool.and_eq_true, List.isEmpty_eq_true] at hb
      exact hne hb.2
    · have hb := (List.mem_filter.mp hmem).2
      simp only [Bool.and_eq_true, List.isEmpty_eq_true] at hb
      exact hne hb.2

/-- A second identity document, alternative to the first. -/
def altDocY : Document :=
  .mk "docY" "Voter ID" [] "identity_proof" true [] "Voter identity card" []

/-- A third identity document, alternative to the first. -/
def altDocZ : Document :=
  .mk "docZ" "Ration Card" [] "identity_proof" true [] "Ration card" []

/-- A mandatory document declaring two alternatives. -/
def docWithAlts : Document :=
  .mk "docX" "Aadhaar Card" [] "identity_proof" true [altDocY, altDocZ]
    "Identity card" []

/-- An optional standalone document. -/
def plainDoc : Document :=
  .mk "docP" "Income Certificate" [] "income_certificate" false []
    "Income certificate" []

/-- Witness for C6 on a concrete two-document scheme: the document with
alternatives occurs exactly once (in its group) and never standalone. -/
theorem c6_checklist_partition_witness :
    checklistCount (buildChecklist [docWithAlts, plainDoc]) docWithAlts = 1 ∧
    (docWithAlts.alternatives ≠ [] →
      docWithAlts ∉ (buildChecklist [docWithAlts, plainDoc]).mandatory ∧
      docWithAlts ∉ (buildChecklist [docWithAlts, plainDoc]).optional) :=
  c6_checklist_partition [docWithAlts, plainDoc] docWithAlts
    (by decide) (by decide) (by decide)

/-- Auxiliary strong induction: validity of a document list is validity of
every node in the forest of trees it spans. -/
theorem docsValid_iff_aux (n : Nat) :
    ∀ ds : List Document, sizeOf ds ≤ n →
      (documentsValid ds = true ↔
        ∀ e ∈ subDocsList ds, documentBaseValid e = true) := by
  induction n with
  | zero =>
    intro ds h
    cases ds with
    | nil => simp [documentsValid, subDocsList]
    | cons d t =>
      exfalso
      simp only [List.cons.sizeOf_spec] at h
      omega
  | succ n ih =>
    intro ds h
    cases ds with
    | nil => simp [documentsValid, subDocsList]
    | cons d t =>
      cases d with
      | mk i nm nt ty m alts dsc dt =>
        have h1 : sizeOf alts ≤ n := by
          simp only [List.cons.sizeOf_spec, Document.mk.sizeOf_spec] at h
          omega
        have h2 : sizeOf t ≤ n := by
          simp only [List.cons.sizeOf_spec, Document.mk.sizeOf_spec] at h
          omega
        simp only [documentsValid, documentValid, subDocsList, subDocs,
          Bool.and_eq_true, ih alts h1, ih t h2, List.mem_append,
          List.mem_cons]
        constructor
        · rintro ⟨⟨hb, ha⟩, ht⟩ e he
          rcases he with (he | he) | he
          · rw [he]; exact hb
          · exact ha e he
          · exact ht e he
        · intro hall
          exact ⟨⟨hall _ (Or.inl (Or.inl rfl)),
                  fun e he => hall e (Or.inl (Or.inr he))⟩,
                fun e he => hall e (Or.inr he)⟩

/-- C7: `DocumentSchema` validation, being structural recursion over the
(finite, acyclic by construction) `alternatives` tree, is total and accepts a
document exactly when every document in its tree has nonempty `documentId`,
`name` and `description` and a `DocumentTypeSchema` type tag. -/
theorem c7_documentSchema_characterization (d : Document) :
    documentValid d = true ↔ ∀ e ∈ subDocs d, documentBaseValid e = true := by
  have h := docsValid_iff_aux (sizeOf [d]) [d] le_rfl
  simp only [documentsValid, subDocsList, List.append_nil,
    Bool.and_eq_true] at h
  simpa using h

/-- Witness for C7: the sample document validates, via the characterization
applied to its (trivial) tree. -/
theorem c7_documentSchema_characterization_witness :
    documentValid sampleDoc = true :=
  (c7_documentSchema_characterization sampleDoc).mpr (by decide)

/-- Witness for C9: deleting an absent user from the one-entry store
succeeds and leaves the store unchanged. -/
theorem c9_delete_idempotent_witness :
    deleteRun false oneStore "absent" = .ok oneStore :=
  (c9_delete_idempotent false oneStore "absent").2.2 (by decide)
